import Mathlib

/-!
Verification of the Budget & Spend Analytics Engine of the
Control-of-Expenses backend (FastAPI + SQLAlchemy), shallowly embedded in
Lean 4.

Modelling conventions:
* Calendar dates are embedded as integers (days); the SQL comparisons
  `Expense.date >= d1`, `Expense.date <= d2` and Python `date` subtraction
  (whose `.days` is the calendar-day difference) map to integer comparison
  and subtraction.
* `Decimal` / SQL `Numeric` money amounts are embedded as rationals (ℚ):
  decimal arithmetic on these values is exact, as is ℚ arithmetic.
* UUID primary keys are embedded as `Nat` identifiers.
* The database session is embedded as an `AppState` record of lists of rows;
  SQLAlchemy queries become list filters, `func.sum` becomes `List.sum`
  (with `coalesce(…, 0)` giving `0` on the empty list), `.first()` becomes
  `List.find?`, and a committed INSERT/UPDATE returns the new state.
* `raise HTTPException` becomes returning an error value; routing,
  authentication and serialization are outside the embedded core.
-/

namespace ControlExpenses

/-- Row of the `budgets` table (src/models/budget.py).  `category_id = none`
is the umbrella ("general") budget.  `created_at` is not modelled: no claim
depends on it. -/
structure Budget where
  id : Nat
  user_id : Nat
  category_id : Option Nat
  amount : ℚ
  period : String
  start_date : Int
  end_date : Int
  alert_percentage : Int
deriving Repr, DecidableEq

/-- Row of the `categories` table (src/models/category.py); only the fields
the embedded operations read (`icon`, `color` and `created_at` are never
consulted by them). -/
structure CategoryRec where
  id : Nat
  user_id : Nat
  name : String
  is_system : Bool
deriving Repr, DecidableEq

/-- Row of the `expenses` table (src/models/transactions.py);
`category_id` is NOT NULL in the model. -/
structure Expense where
  id : Nat
  user_id : Nat
  category_id : Nat
  amount : ℚ
  date : Int
deriving Repr, DecidableEq

/-- The record store: the three tables the analytics engine reads. -/
structure AppState where
  budgets : List Budget
  categories : List CategoryRec
  expenses : List Expense
deriving Repr, DecidableEq

/-- Body of `POST /api/budgets` (schemas/budget.py `BudgetCreate`). -/
structure BudgetCreateReq where
  category_id : Option Nat
  amount : ℚ
  period : String
  start_date : Int
  end_date : Int
  alert_percentage : Int
deriving Repr, DecidableEq

/-- Pydantic validation of `BudgetCreate` (schemas/budget.py): field
constraints `amount > 0`, `period` in {monthly, weekly, yearly},
`1 <= alert_percentage <= 100`, and the `validate_end_date` validator
rejecting `end_date <= start_date`. -/
def budgetCreateValid (req : BudgetCreateReq) : Bool :=
  decide (0 < req.amount) &&
    (req.period == "monthly" || req.period == "weekly" || req.period == "yearly") &&
    decide (req.start_date < req.end_date) &&
    decide (1 ≤ req.alert_percentage) && decide (req.alert_percentage ≤ 100)

/-- The category-ownership check used before inserting or re-pointing a
budget: `Category.id == cid AND Category.user_id == uid` has a row. -/
def categoryOwned (st : AppState) (uid cid : Nat) : Bool :=
  st.categories.any fun c => c.id == cid && c.user_id == uid

/-- The existing-budget filter of `create_budget`
(src/routers/budgets.py:127-137): same user, same category value (SQL
`IS NULL` when the request has no category), and the three-branch interval
condition of the `or_` clause. -/
def budgetConflict (uid : Nat) (req : BudgetCreateReq) (b : Budget) : Bool :=
  b.user_id == uid && b.category_id == req.category_id &&
    ((decide (b.start_date ≤ req.start_date) && decide (req.start_date ≤ b.end_date)) ||
     (decide (b.start_date ≤ req.end_date) && decide (req.end_date ≤ b.end_date)) ||
     (decide (req.start_date ≤ b.start_date) && decide (b.end_date ≤ req.end_date)))

/-- Outcome of `POST /api/budgets`. -/
inductive CreateResult where
  | categoryNotFound
  | conflict
  | created (b : Budget)
deriving Repr, DecidableEq

/-- The conflict-scan-then-insert tail of `create_budget`
(src/routers/budgets.py:127-160), after the category check passed. -/
def createChecked (uid : Nat) (req : BudgetCreateReq) (newId : Nat)
    (st : AppState) : CreateResult × AppState :=
  if st.budgets.any (budgetConflict uid req) then
    (CreateResult.conflict, st)
  else
    let nb : Budget :=
      { id := newId, user_id := uid, category_id := req.category_id,
        amount := req.amount, period := req.period,
        start_date := req.start_date, end_date := req.end_date,
        alert_percentage := req.alert_percentage }
    (CreateResult.created nb, { st with budgets := st.budgets ++ [nb] })

/-- `create_budget` (src/routers/budgets.py:108-160): category ownership
check when a category is given, then conflict scan, then insert. -/
def create_budget (uid : Nat) (req : BudgetCreateReq) (newId : Nat)
    (st : AppState) : CreateResult × AppState :=
  match req.category_id with
  | some cid =>
      if categoryOwned st uid cid then createChecked uid req newId st
      else (CreateResult.categoryNotFound, st)
  | none => createChecked uid req newId st

/-- For well-formed intervals, the code's three-branch disjunction equals
the two-condition overlap test of the spec. -/
lemma threeBranch_iff_overlap (es ee cs ce : Int) (hE : es ≤ ee) (hC : cs < ce) :
    ((es ≤ cs ∧ cs ≤ ee) ∨ (es ≤ ce ∧ ce ≤ ee) ∨ (cs ≤ es ∧ ee ≤ ce)) ↔
      (es ≤ ce ∧ cs ≤ ee) := by
  omega

lemma budgetConflict_eq_true_iff (uid : Nat) (req : BudgetCreateReq) (b : Budget) :
    budgetConflict uid req b = true ↔
      b.user_id = uid ∧ b.category_id = req.category_id ∧
        ((b.start_date ≤ req.start_date ∧ req.start_date ≤ b.end_date) ∨
         (b.start_date ≤ req.end_date ∧ req.end_date ≤ b.end_date) ∨
         (req.start_date ≤ b.start_date ∧ b.end_date ≤ req.end_date)) := by
  simp only [budgetConflict, Bool.and_eq_true, Bool.or_eq_true,
    decide_eq_true_eq, beq_iff_eq, and_assoc, or_assoc]

/-- C1: with well-formed stored budgets, a schema-valid request and an
owned (or absent) referenced category, `create_budget` reports a conflict
iff some stored budget of the same owner and same category value satisfies
the two-condition overlap test, and a conflict leaves the store unchanged. -/
theorem create_budget_conflict_iff (uid : Nat) (req : BudgetCreateReq)
    (newId : Nat) (st : AppState)
    (hwf : ∀ b ∈ st.budgets, b.start_date ≤ b.end_date)
    (hreq : req.start_date < req.end_date)
    (hcat : req.category_id.all (categoryOwned st uid) = true) :
    ((create_budget uid req newId st).1 = CreateResult.conflict ↔
       ∃ b ∈ st.budgets, b.user_id = uid ∧ b.category_id = req.category_id ∧
         b.start_date ≤ req.end_date ∧ req.start_date ≤ b.end_date)
    ∧ ((create_budget uid req newId st).1 = CreateResult.conflict →
        (create_budget uid req newId st).2 = st) := by
  have hred : create_budget uid req newId st = createChecked uid req newId st := by
    cases hc : req.category_id with
    | none => simp [create_budget, hc]
    | some cid =>
        have : categoryOwned st uid cid = true := by
          simpa [hc, Option.all] using hcat
        simp [create_budget, hc, this]
  rw [hred]
  unfold createChecked
  by_cases hany : st.budgets.any (budgetConflict uid req) = true
  · rw [if_pos hany]
    constructor
    · constructor
      · intro _
        obtain ⟨b, hb, hcf⟩ := List.any_eq_true.mp hany
        refine ⟨b, hb, ?_⟩
        have h := (budgetConflict_eq_true_iff uid req b).mp hcf
        have hov := (threeBranch_iff_overlap b.start_date b.end_date
          req.start_date req.end_date (hwf b hb) hreq).mp h.2.2
        exact ⟨h.1, h.2.1, hov.1, hov.2⟩
      · intro _; rfl
    · intro _; rfl
  · rw [if_neg hany]
    constructor
    · constructor
      · intro h; exact absurd h (by simp)
      · rintro ⟨b, hb, h1, h2, h3, h4⟩
        exfalso
        apply hany
        refine List.any_eq_true.mpr ⟨b, hb, ?_⟩
        refine (budgetConflict_eq_true_iff uid req b).mpr ⟨h1, h2, ?_⟩
        exact (threeBranch_iff_overlap b.start_date b.end_date
          req.start_date req.end_date (hwf b hb) hreq).mpr ⟨h3, h4⟩
    · intro h; exact absurd h (by simp)

/-- A stored January umbrella budget (days 0–30) of owner 1, used in
concrete instances. -/
def exBudgetJan : Budget :=
  { id := 1, user_id := 1, category_id := none, amount := 50,
    period := "monthly", start_date := 0, end_date := 30,
    alert_percentage := 80 }

/-- A store holding only `exBudgetJan`. -/
def exStateJan : AppState :=
  { budgets := [exBudgetJan], categories := [], expenses := [] }

/-- An umbrella-budget creation request for days 14–45. -/
def exReqOverlap : BudgetCreateReq :=
  { category_id := none, amount := 100, period := "monthly",
    start_date := 14, end_date := 45, alert_percentage := 80 }

/-- Concrete instance of C1: owner 1 has a January budget (days 0–30) for
the umbrella category; a request for days 14–45 is rejected as a conflict
and the store is unchanged. -/
theorem create_budget_conflict_iff_witness :
    ((create_budget 1 exReqOverlap 2 exStateJan).1 = CreateResult.conflict ↔
       ∃ b ∈ exStateJan.budgets, b.user_id = 1 ∧
         b.category_id = exReqOverlap.category_id ∧
         b.start_date ≤ exReqOverlap.end_date ∧
         exReqOverlap.start_date ≤ b.end_date)
    ∧ ((create_budget 1 exReqOverlap 2 exStateJan).1 = CreateResult.conflict →
        (create_budget 1 exReqOverlap 2 exStateJan).2 = exStateJan) :=
  create_budget_conflict_iff 1 exReqOverlap 2 exStateJan
    (by decide) (by decide) (by decide)

/-- Body of `PUT /api/budgets/{id}` (schemas/budget.py `BudgetUpdate`).
Pydantic's `exclude_unset` distinguishes fields absent from the request
body from fields explicitly set to null, so each field is wrapped in an
outer `Option` meaning presence.  `BudgetUpdate` declares NO cross-field
validator: any combination of present fields passes schema validation. -/
structure BudgetUpdateReq where
  category_id : Option (Option Nat) := none
  amount : Option ℚ := none
  period : Option String := none
  start_date : Option Int := none
  end_date : Option Int := none
  alert_percentage : Option Int := none
deriving Repr, DecidableEq

/-- The `setattr` loop of `update_budget` (src/routers/budgets.py:238-239):
every field present in the body overwrites the stored value. -/
def applyBudgetUpdate (b : Budget) (u : BudgetUpdateReq) : Budget :=
  { b with
    category_id := u.category_id.getD b.category_id,
    amount := u.amount.getD b.amount,
    period := u.period.getD b.period,
    start_date := u.start_date.getD b.start_date,
    end_date := u.end_date.getD b.end_date,
    alert_percentage := u.alert_percentage.getD b.alert_percentage }

/-- The category check of `update_budget` (src/routers/budgets.py:227-236):
performed only when `category_id` is present in the body AND non-null
(Python truthiness of the value). -/
def updateCategoryOk (st : AppState) (uid : Nat) (u : BudgetUpdateReq) : Bool :=
  match u.category_id with
  | some (some cid) => categoryOwned st uid cid
  | _ => true

/-- Outcome of `PUT /api/budgets/{id}`.  The route has exactly three exits:
404 for a missing/foreign budget, 404 for a missing/foreign category, or a
committed update — there is no conflict exit. -/
inductive UpdateResult where
  | budgetNotFound
  | categoryNotFound
  | updated (b : Budget)
deriving Repr, DecidableEq

/-- `update_budget` (src/routers/budgets.py:206-244): find the budget by
id and owner, check an updated category, apply all present fields and
commit.  No overlap scan and no date validation occur on this path. -/
def update_budget (uid bid : Nat) (u : BudgetUpdateReq) (st : AppState) :
    UpdateResult × AppState :=
  match st.budgets.find? (fun b => b.id == bid && b.user_id == uid) with
  | none => (UpdateResult.budgetNotFound, st)
  | some b =>
      if updateCategoryOk st uid u then
        let nb := applyBudgetUpdate b u
        (UpdateResult.updated nb,
          { st with budgets := st.budgets.map fun x =>
              if x.id == bid && x.user_id == uid then nb else x })
      else (UpdateResult.categoryNotFound, st)

/-- A stored budget of owner 1 for days 40–70, same (umbrella) category as
`exBudgetJan`, not overlapping it. -/
def exBudgetFeb : Budget :=
  { id := 2, user_id := 1, category_id := none, amount := 60,
    period := "monthly", start_date := 40, end_date := 70,
    alert_percentage := 80 }

/-- A store holding the two non-overlapping umbrella budgets of owner 1. -/
def exStateTwo : AppState :=
  { budgets := [exBudgetJan, exBudgetFeb], categories := [], expenses := [] }

/-- An update request moving only `start_date` to day 14. -/
def exUpdStart14 : BudgetUpdateReq := { start_date := some 14 }

/-- C2 counterexample: updating budget 2 of owner 1 from days 40–70 to
days 14–70 makes it overlap the stored budget `exBudgetJan` (days 0–30,
same owner, same umbrella category), yet `update_budget` commits the
update instead of rejecting it with a conflict error. -/
theorem update_budget_overlap_not_rejected :
    (update_budget 1 2 exUpdStart14 exStateTwo).1 =
        UpdateResult.updated (applyBudgetUpdate exBudgetFeb exUpdStart14)
      ∧ (applyBudgetUpdate exBudgetFeb exUpdStart14).user_id = exBudgetJan.user_id
      ∧ (applyBudgetUpdate exBudgetFeb exUpdStart14).category_id = exBudgetJan.category_id
      ∧ (applyBudgetUpdate exBudgetFeb exUpdStart14).start_date ≤ exBudgetJan.end_date
      ∧ exBudgetJan.start_date ≤ (applyBudgetUpdate exBudgetFeb exUpdStart14).end_date
      ∧ exBudgetJan ∈ (update_budget 1 2 exUpdStart14 exStateTwo).2.budgets
      ∧ applyBudgetUpdate exBudgetFeb exUpdStart14 ∈
          (update_budget 1 2 exUpdStart14 exStateTwo).2.budgets := by
  decide

/-- C2 (amended): `update_budget` performs no overlap validation.  When
the budget is found for the owner and the category check passes, the
update is committed whatever date range results. -/
theorem update_budget_no_overlap_validation (uid bid : Nat)
    (u : BudgetUpdateReq) (st : AppState) (b : Budget)
    (hfind : st.budgets.find? (fun x => x.id == bid && x.user_id == uid) = some b)
    (hcat : updateCategoryOk st uid u = true) :
    (update_budget uid bid u st).1 = UpdateResult.updated (applyBudgetUpdate b u) := by
  simp [update_budget, hfind, hcat]

/-- Concrete instance of C2 (amended): the overlap-creating update of the
counterexample is committed. -/
theorem update_budget_no_overlap_validation_witness :
    (update_budget 1 2 exUpdStart14 exStateTwo).1 =
      UpdateResult.updated (applyBudgetUpdate exBudgetFeb exUpdStart14) :=
  update_budget_no_overlap_validation 1 2 exUpdStart14 exStateTwo exBudgetFeb
    (by decide) (by decide)

/-- An update request moving only `start_date` to day 45. -/
def exUpdStart45 : BudgetUpdateReq := { start_date := some 45 }

/-- C3 counterexample: updating only `start_date` of the stored budget
(days 0–30) to day 45 is committed, and the stored budget now violates
`end_date > start_date`. -/
theorem update_budget_breaks_date_invariant :
    (update_budget 1 1 exUpdStart45 exStateJan).1 =
        UpdateResult.updated (applyBudgetUpdate exBudgetJan exUpdStart45)
      ∧ (applyBudgetUpdate exBudgetJan exUpdStart45).end_date ≤
          (applyBudgetUpdate exBudgetJan exUpdStart45).start_date
      ∧ applyBudgetUpdate exBudgetJan exUpdStart45 ∈
          (update_budget 1 1 exUpdStart45 exStateJan).2.budgets := by
  decide

lemma create_budget_state_cases (uid : Nat) (req : BudgetCreateReq)
    (newId : Nat) (st : AppState) :
    (create_budget uid req newId st).2.budgets = st.budgets ∨
      (create_budget uid req newId st).2.budgets = st.budgets ++
        [{ id := newId, user_id := uid, category_id := req.category_id,
           amount := req.amount, period := req.period,
           start_date := req.start_date, end_date := req.end_date,
           alert_percentage := req.alert_percentage }] := by
  cases hc : req.category_id with
  | none =>
      simp only [create_budget, hc, createChecked]
      split
      · exact Or.inl rfl
      · exact Or.inr rfl
  | some cid =>
      simp only [create_budget, hc]
      split
      · simp only [createChecked]
        split
        · exact Or.inl rfl
        · right
          rw [hc]
      · exact Or.inl rfl

/-- C3 (amended): budget creation preserves the `end_date > start_date`
invariant — the `BudgetCreate` schema validator rejects `end_date <=
start_date` before the route runs, and the inserted row copies the
request's dates.  (Updates do not preserve it; see the counterexample.) -/
theorem create_budget_preserves_date_invariant (uid : Nat)
    (req : BudgetCreateReq) (newId : Nat) (st : AppState)
    (hv : budgetCreateValid req = true)
    (hwf : ∀ b ∈ st.budgets, b.start_date < b.end_date) :
    ∀ b ∈ (create_budget uid req newId st).2.budgets,
      b.start_date < b.end_date := by
  have hse : req.start_date < req.end_date := by
    simp only [budgetCreateValid, Bool.and_eq_true, Bool.or_eq_true,
      decide_eq_true_eq] at hv
    tauto
  intro b hb
  rcases create_budget_state_cases uid req newId st with hcase | hcase
  · rw [hcase] at hb
    exact hwf b hb
  · rw [hcase] at hb
    rcases List.mem_append.mp hb with hb | hb
    · exact hwf b hb
    · rcases List.mem_singleton.mp hb with rfl
      exact hse

/-- Concrete instance of C3 (amended): creating the valid request on the
one-budget store keeps every stored budget's dates strictly ordered. -/
theorem create_budget_preserves_date_invariant_witness :
    ((create_budget 1 exReqOverlap 2
        { budgets := [], categories := [], expenses := [] }).2.budgets).all
      (fun b => decide (b.start_date < b.end_date)) = true := by
  have h := create_budget_preserves_date_invariant 1 exReqOverlap 2
    { budgets := [], categories := [], expenses := [] }
    (by decide) (by decide)
  exact List.all_eq_true.mpr fun b hb => decide_eq_true (h b hb)

/-- Result record of `calculate_budget_stats`
(src/routers/budgets.py:27-58). -/
structure BudgetStats where
  spent_amount : ℚ
  remaining_amount : ℚ
  used_percentage : ℚ
  is_exceeded : Bool
  days_remaining : Int
deriving Repr, DecidableEq

/-- The expense filter of the spent query in `calculate_budget_stats`
(src/routers/budgets.py:31-41): same user, date within the budget period,
and the category filter added only when the budget has one. -/
def matchesBudgetExpense (budget : Budget) (e : Expense) : Bool :=
  e.user_id == budget.user_id && decide (budget.start_date ≤ e.date) &&
    decide (e.date ≤ budget.end_date) &&
    (match budget.category_id with
     | some cid => e.category_id == cid
     | none => true)

/-- `calculate_budget_stats` (src/routers/budgets.py:27-58):
`coalesce(sum(amount), 0)` over the filtered expenses, remaining,
guarded percentage, exceeded flag, and `max(0, days_remaining)` where
`days_remaining` is `(end_date - today).days` when `end_date > today`
else `0`. -/
def calculate_budget_stats (budget : Budget) (expenses : List Expense)
    (today : Int) : BudgetStats :=
  let spent := ((expenses.filter (matchesBudgetExpense budget)).map
    Expense.amount).sum
  let daysRaw : Int :=
    if today < budget.end_date then budget.end_date - today else 0
  { spent_amount := spent,
    remaining_amount := budget.amount - spent,
    used_percentage :=
      if 0 < budget.amount then spent / budget.amount * 100 else 0,
    is_exceeded := decide (budget.amount < spent),
    days_remaining := max 0 daysRaw }

/-- The spec's wording of which expenses a budget's `spent` covers: the
owner's expenses dated within `[start_date, end_date]`, restricted to the
budget's category when one is set and unrestricted for an umbrella
budget. -/
def specExpenseInBudget (budget : Budget) (e : Expense) : Prop :=
  e.user_id = budget.user_id ∧ budget.start_date ≤ e.date ∧
    e.date ≤ budget.end_date ∧
    (budget.category_id = none ∨ budget.category_id = some e.category_id)

instance (budget : Budget) (e : Expense) :
    Decidable (specExpenseInBudget budget e) := by
  unfold specExpenseInBudget
  infer_instance

lemma matchesBudgetExpense_eq_spec (budget : Budget) (e : Expense) :
    matchesBudgetExpense budget e = decide (specExpenseInBudget budget e) := by
  rw [Bool.eq_iff_iff, decide_eq_true_eq]
  cases hc : budget.category_id with
  | none =>
      simp [matchesBudgetExpense, specExpenseInBudget, hc, and_assoc]
  | some cid =>
      simp only [matchesBudgetExpense, specExpenseInBudget, hc,
        Bool.and_eq_true, decide_eq_true_eq, beq_iff_eq, and_assoc]
      constructor
      · rintro ⟨h1, h2, h3, h4⟩
        exact ⟨h1, h2, h3, Or.inr (by rw [h4])⟩
      · rintro ⟨h1, h2, h3, h4⟩
        refine ⟨h1, h2, h3, ?_⟩
        rcases h4 with h4 | h4
        · exact absurd h4 (by simp)
        · exact (Option.some_inj.mp h4).symm

/-- C4: the computed status equals the spec's formulas — `spent` sums
exactly the spec-matching expenses, `remaining = amount - spent`,
`exceeded ↔ spent > amount`, and `days_remaining = max 0 (end - today)`. -/
theorem calculate_budget_stats_correct (budget : Budget)
    (expenses : List Expense) (today : Int) :
    (calculate_budget_stats budget expenses today).spent_amount =
        ((expenses.filter fun e =>
          decide (specExpenseInBudget budget e)).map Expense.amount).sum
      ∧ (calculate_budget_stats budget expenses today).remaining_amount =
          budget.amount -
            (calculate_budget_stats budget expenses today).spent_amount
      ∧ ((calculate_budget_stats budget expenses today).is_exceeded = true ↔
          budget.amount <
            (calculate_budget_stats budget expenses today).spent_amount)
      ∧ (calculate_budget_stats budget expenses today).days_remaining =
          max 0 (budget.end_date - today) := by
  have hfilter : expenses.filter (matchesBudgetExpense budget) =
      expenses.filter fun e => decide (specExpenseInBudget budget e) :=
    List.filter_congr fun e _ => matchesBudgetExpense_eq_spec budget e
  refine ⟨?_, rfl, ?_, ?_⟩
  · simp only [calculate_budget_stats, hfilter]
  · simp only [calculate_budget_stats, decide_eq_true_eq]
  · simp only [calculate_budget_stats]
    split <;> omega

/-- Fragment of `get_dashboard_metrics` (src/routers/reports.py:41-62):
the current-month spend of the user and the guarded
`budget_used_percentage`. -/
def dashboardBudgetUsedPercentage (expenses : List Expense) (uid : Nat)
    (monthStart : Int) (monthlyBudget : ℚ) : ℚ :=
  let monthlyExpenses := ((expenses.filter fun e =>
    e.user_id == uid && decide (monthStart ≤ e.date)).map Expense.amount).sum
  if 0 < monthlyBudget then monthlyExpenses / monthlyBudget * 100 else 0

/-- C7: `used_percentage` is total and guarded — it is `0` whenever the
budget amount is `0`, equals `spent / amount * 100` whenever the amount is
positive, and the dashboard's `budget_used_percentage` is `0` whenever the
monthly budget is `0`. -/
theorem used_percentage_zero_guard (b0 b1 : Budget)
    (exps exps2 : List Expense) (today : Int) (uid : Nat) (ms : Int)
    (mb : ℚ) (h0 : b0.amount = 0) (h1 : 0 < b1.amount) (hm : mb = 0) :
    (calculate_budget_stats b0 exps today).used_percentage = 0
      ∧ (calculate_budget_stats b1 exps today).used_percentage =
          (calculate_budget_stats b1 exps today).spent_amount /
            b1.amount * 100
      ∧ dashboardBudgetUsedPercentage exps2 uid ms mb = 0 := by
  refine ⟨?_, ?_, ?_⟩
  · simp [calculate_budget_stats, h0]
  · simp [calculate_budget_stats, h1]
  · simp [dashboardBudgetUsedPercentage, hm]

/-- A budget of owner 1 with amount `0`, only used in concrete
instances.  (The schema forbids creating one; the guard still covers
it.) -/
def exBudgetZero : Budget :=
  { id := 3, user_id := 1, category_id := none, amount := 0,
    period := "monthly", start_date := 0, end_date := 30,
    alert_percentage := 80 }

/-- Concrete instance of C7 at amount `0`, amount `50` and monthly budget
`0`. -/
theorem used_percentage_zero_guard_witness :
    (calculate_budget_stats exBudgetZero [] 10).used_percentage = 0
      ∧ (calculate_budget_stats exBudgetJan [] 10).used_percentage =
          (calculate_budget_stats exBudgetJan [] 10).spent_amount /
            exBudgetJan.amount * 100
      ∧ dashboardBudgetUsedPercentage [] 1 0 0 = 0 :=
  used_percentage_zero_guard exBudgetZero exBudgetJan [] [] 10 1 0 0
    (by decide) (by decide) (by decide)

/-- Result record of `get_expense_summary`
(src/routers/transactions.py:271-332); the optional `top_category` is not
modelled, no claim depends on it. -/
structure ExpenseSummaryRes where
  total_amount : ℚ
  expense_count : Nat
  average_expense : ℚ
deriving Repr, DecidableEq

/-- `get_expense_summary` (src/routers/transactions.py:290-310): filter
the user's expenses to the inclusive period, answer all-zero when none
match, else total, count and guarded average. -/
def expense_summary (expenses : List Expense) (uid : Nat) (s e : Int) :
    ExpenseSummaryRes :=
  let matching := expenses.filter fun x =>
    x.user_id == uid && decide (s ≤ x.date) && decide (x.date ≤ e)
  if matching.isEmpty then
    { total_amount := 0, expense_count := 0, average_expense := 0 }
  else
    let total := (matching.map Expense.amount).sum
    { total_amount := total, expense_count := matching.length,
      average_expense :=
        if 0 < matching.length then total / (matching.length : ℚ) else 0 }

/-- C8: when no expense matches the owner, period and category filter, the
budget aggregator returns a spent total of `0`, and the expense summary
over an empty period returns total `0`, count `0` and average `0`. -/
theorem empty_aggregation_zero (budget : Budget) (exps : List Expense)
    (today : Int) (uid : Nat) (s e : Int) (exps2 : List Expense)
    (h1 : ∀ x ∈ exps, ¬ specExpenseInBudget budget x)
    (h2 : ∀ x ∈ exps2, ¬ (x.user_id = uid ∧ s ≤ x.date ∧ x.date ≤ e)) :
    (calculate_budget_stats budget exps today).spent_amount = 0
      ∧ expense_summary exps2 uid s e =
          { total_amount := 0, expense_count := 0, average_expense := 0 } := by
  have hf1 : exps.filter (matchesBudgetExpense budget) = [] := by
    rw [List.filter_eq_nil_iff]
    intro a ha
    rw [matchesBudgetExpense_eq_spec]
    simpa using h1 a ha
  have hf2 : (exps2.filter fun x =>
      x.user_id == uid && decide (s ≤ x.date) && decide (x.date ≤ e)) = [] := by
    rw [List.filter_eq_nil_iff]
    intro a ha
    simpa [Bool.and_eq_true, decide_eq_true_eq, and_assoc] using h2 a ha
  constructor
  · simp [calculate_budget_stats, hf1]
  · simp [expense_summary, hf2]

/-- An expense of a different owner (user 2), outside nothing but owned
elsewhere, used in the concrete C8 instance. -/
def exExpenseOther : Expense :=
  { id := 10, user_id := 2, category_id := 7, amount := 5, date := 12 }

/-- Concrete instance of C8: with only another owner's expense stored,
owner 1's budget aggregation and monthly summary are all zero. -/
theorem empty_aggregation_zero_witness :
    (calculate_budget_stats exBudgetJan [exExpenseOther] 10).spent_amount = 0
      ∧ expense_summary [exExpenseOther] 1 0 30 =
          { total_amount := 0, expense_count := 0, average_expense := 0 } :=
  empty_aggregation_zero exBudgetJan [exExpenseOther] 10 1 0 30
    [exExpenseOther] (by decide) (by decide)

/-- One point of the trends series (schemas/reports.py `SpendingTrend`):
a calendar day, its spend total, and the optional 7-day moving average. -/
structure SpendingTrend where
  date : Int
  amount : ℚ
  moving_average : Option ℚ
deriving Repr, DecidableEq

/-- The grouped daily-total query of `get_spending_trends`
(src/routers/reports.py:329-343), read back for one day `d`: the sum of
the user's expense amounts with `start_date <= date <= end_date` grouped
by day, `0` when the day has no row. -/
def dailyTotal (expenses : List Expense) (uid : Nat) (s e d : Int) : ℚ :=
  ((expenses.filter fun x => x.user_id == uid && decide (s ≤ x.date) &&
    decide (x.date ≤ e) && x.date == d).map Expense.amount).sum

/-- The Python slice `trends[i-6:i+1]` summed over `amount`
(src/routers/reports.py:356). -/
def trendWindowSum (pts : List SpendingTrend) (i : Nat) : ℚ :=
  (((pts.drop (i - 6)).take 7).map SpendingTrend.amount).sum

/-- The gap-filling loop of `get_spending_trends`
(src/routers/reports.py:341-351): one point per day from
`today - days` through `today`, in ascending order, with `0` substituted
for days without expenses. -/
def trendBase (expenses : List Expense) (uid : Nat) (today : Int)
    (days : Nat) : List SpendingTrend :=
  (List.range (days + 1)).map fun (i : Nat) =>
    { date := today - (days : Int) + (i : Int),
      amount := dailyTotal expenses uid (today - (days : Int)) today
        (today - (days : Int) + (i : Int)),
      moving_average := none }

/-- The moving-average pass of `get_spending_trends`
(src/routers/reports.py:354-357): `for i in range(len(trends))`, when
`i >= 6` set `moving_average` to the 7-day window sum divided by 7. -/
def addMovingAverage (pts : List SpendingTrend) : List SpendingTrend :=
  List.ofFn fun i : Fin pts.length =>
    if 6 ≤ (i : Nat) then
      { pts.get i with moving_average := some (trendWindowSum pts (i : Nat) / 7) }
    else pts.get i

/-- `get_spending_trends` (src/routers/reports.py:319-359). -/
def get_spending_trends (expenses : List Expense) (uid : Nat) (today : Int)
    (days : Nat) : List SpendingTrend :=
  addMovingAverage (trendBase expenses uid today days)

lemma length_trendBase (expenses : List Expense) (uid : Nat) (today : Int)
    (days : Nat) : (trendBase expenses uid today days).length = days + 1 := by
  unfold trendBase
  rw [List.length_map, List.length_range]

lemma getElem_trendBase (expenses : List Expense) (uid : Nat) (today : Int)
    (days : Nat) (i : Nat) (h : i < (trendBase expenses uid today days).length) :
    (trendBase expenses uid today days)[i] =
      { date := today - (days : Int) + i,
        amount := dailyTotal expenses uid (today - (days : Int)) today
          (today - (days : Int) + i),
        moving_average := none } := by
  simp only [trendBase, List.getElem_map, List.getElem_range]

lemma length_addMovingAverage (pts : List SpendingTrend) :
    (addMovingAverage pts).length = pts.length := by
  simp [addMovingAverage]

lemma getElem_addMovingAverage (pts : List SpendingTrend) (i : Nat)
    (h : i < (addMovingAverage pts).length)
    (h' : i < pts.length) :
    (addMovingAverage pts)[i] =
      if 6 ≤ i then
        { pts[i] with moving_average := some (trendWindowSum pts i / 7) }
      else pts[i] := by
  simp [addMovingAverage, List.getElem_ofFn, List.get_eq_getElem]

lemma addMovingAverage_map_amount (pts : List SpendingTrend) :
    (addMovingAverage pts).map SpendingTrend.amount =
      pts.map SpendingTrend.amount := by
  apply List.ext_getElem
  · rw [List.length_map, List.length_map, length_addMovingAverage]
  · intro i h1 h2
    have hp : i < pts.length := by
      rw [List.length_map, length_addMovingAverage] at h1
      exact h1
    have ha : i < (addMovingAverage pts).length := by
      rw [length_addMovingAverage]
      exact hp
    rw [List.getElem_map, List.getElem_map,
      getElem_addMovingAverage pts i ha hp]
    split <;> rfl

lemma trendWindowSum_addMovingAverage (pts : List SpendingTrend) (i : Nat) :
    trendWindowSum (addMovingAverage pts) i = trendWindowSum pts i := by
  unfold trendWindowSum
  rw [List.map_take, List.map_drop, addMovingAverage_map_amount,
    ← List.map_drop, ← List.map_take]

lemma dailyTotal_eq_daySum (expenses : List Expense) (uid : Nat)
    (s e d : Int) (h1 : s ≤ d) (h2 : d ≤ e) :
    dailyTotal expenses uid s e d =
      ((expenses.filter fun x => x.user_id == uid && x.date == d).map
        Expense.amount).sum := by
  unfold dailyTotal
  congr 1
  congr 1
  apply List.filter_congr
  intro x _
  rw [Bool.eq_iff_iff]
  simp only [Bool.and_eq_true, decide_eq_true_eq, beq_iff_eq]
  constructor
  · rintro ⟨⟨⟨hu, _⟩, _⟩, hd⟩
    exact ⟨hu, hd⟩
  · rintro ⟨hu, hd⟩
    subst hd
    exact ⟨⟨⟨hu, h1⟩, h2⟩, rfl⟩

/-- C5: for `days` in `[7, 365]` the trends series has exactly `days + 1`
points, one per calendar day from `today - days` through `today` in
ascending order; each point's amount is the user's daily sum (`0` when no
expense matches); `moving_average` is unset for indices `0..5` and for
`i ≥ 6` equals the mean of the amounts of points `i-6..i` of the returned
series divided by 7. -/
theorem get_spending_trends_correct (expenses : List Expense) (uid : Nat)
    (today : Int) (days : Nat) (h7 : 7 ≤ days) (h365 : days ≤ 365) :
    (get_spending_trends expenses uid today days).length = days + 1
    ∧ ∀ i (h : i < (get_spending_trends expenses uid today days).length),
        ((get_spending_trends expenses uid today days).get ⟨i, h⟩).date =
            today - (days : Int) + i
        ∧ ((get_spending_trends expenses uid today days).get ⟨i, h⟩).amount =
            ((expenses.filter fun x =>
              x.user_id == uid && x.date == today - (days : Int) + i).map
              Expense.amount).sum
        ∧ ((∀ x ∈ expenses, x.user_id = uid →
              x.date ≠ today - (days : Int) + i) →
            ((get_spending_trends expenses uid today days).get ⟨i, h⟩).amount = 0)
        ∧ ((get_spending_trends expenses uid today days).get ⟨i, h⟩).moving_average =
            (if 6 ≤ i then
              some (trendWindowSum (get_spending_trends expenses uid today days) i / 7)
            else none) := by
  have hlen : (get_spending_trends expenses uid today days).length = days + 1 := by
    rw [get_spending_trends, length_addMovingAverage, length_trendBase]
  refine ⟨hlen, ?_⟩
  intro i h
  have hib : i < (trendBase expenses uid today days).length := by
    rw [length_trendBase]
    omega
  have hidays : i ≤ days := by
    rw [hlen] at h
    omega
  have hg : i < (addMovingAverage (trendBase expenses uid today days)).length := h
  have hget : (get_spending_trends expenses uid today days).get ⟨i, h⟩ =
      if 6 ≤ i then
        { (trendBase expenses uid today days)[i] with
          moving_average :=
            some (trendWindowSum (trendBase expenses uid today days) i / 7) }
      else (trendBase expenses uid today days)[i] := by
    show (addMovingAverage (trendBase expenses uid today days)).get ⟨i, hg⟩ = _
    rw [List.get_eq_getElem]
    exact getElem_addMovingAverage _ i hg hib
  have hbase := getElem_trendBase expenses uid today days i hib
  have hamount : ((get_spending_trends expenses uid today days).get ⟨i, h⟩).amount =
      ((expenses.filter fun x =>
        x.user_id == uid && x.date == today - (days : Int) + i).map
        Expense.amount).sum := by
    rw [hget]
    have hd1 : today - (days : Int) ≤ today - (days : Int) + i := by
      omega
    have hd2 : today - (days : Int) + i ≤ today := by
      omega
    have := dailyTotal_eq_daySum expenses uid (today - (days : Int)) today
      (today - (days : Int) + i) hd1 hd2
    split <;> simp [hbase, this]
  refine ⟨?_, hamount, ?_, ?_⟩
  · rw [hget]
    split <;> simp [hbase]
  · intro hnone
    rw [hamount]
    have : (expenses.filter fun x =>
        x.user_id == uid && x.date == today - (days : Int) + i) = [] := by
      rw [List.filter_eq_nil_iff]
      intro a ha
      simp only [Bool.and_eq_true, beq_iff_eq, not_and]
      intro hu
      exact hnone a ha hu
    simp [this]
  · have hws : trendWindowSum (get_spending_trends expenses uid today days) i =
        trendWindowSum (trendBase expenses uid today days) i :=
      trendWindowSum_addMovingAverage _ i
    rw [hget, hws]
    split <;> simp [hbase]

/-- Concrete instance of C5 at `days = 7`, `today = 10`, no expenses. -/
theorem get_spending_trends_correct_witness :
    (get_spending_trends [] 1 10 7).length = 7 + 1
    ∧ ∀ i (h : i < (get_spending_trends [] 1 10 7).length),
        ((get_spending_trends [] 1 10 7).get ⟨i, h⟩).date =
            10 - ((7 : Nat) : Int) + i
        ∧ ((get_spending_trends [] 1 10 7).get ⟨i, h⟩).amount =
            ((([] : List Expense).filter fun x =>
              x.user_id == 1 && x.date == 10 - ((7 : Nat) : Int) + i).map
              Expense.amount).sum
        ∧ ((∀ x ∈ ([] : List Expense), x.user_id = 1 →
              x.date ≠ 10 - ((7 : Nat) : Int) + i) →
            ((get_spending_trends [] 1 10 7).get ⟨i, h⟩).amount = 0)
        ∧ ((get_spending_trends [] 1 10 7).get ⟨i, h⟩).moving_average =
            (if 6 ≤ i then
              some (trendWindowSum (get_spending_trends [] 1 10 7) i / 7)
            else none) :=
  get_spending_trends_correct [] 1 10 7 (by decide) (by decide)

/-- The expenses the outer join of `get_category_distribution`
(src/routers/reports.py:284-289) attaches to one category: matching
`category_id` and dated within the inclusive range. -/
def categoryRangeExpenses (expenses : List Expense) (cid : Nat)
    (s e : Int) : List Expense :=
  expenses.filter fun x =>
    x.category_id == cid && decide (s ≤ x.date) && decide (x.date ≤ e)

/-- One grouped row of the distribution query, before the positivity
filter. -/
structure CategoryAgg where
  cat : CategoryRec
  total_amount : ℚ
  expense_count : Nat
deriving Repr, DecidableEq

/-- One reported row of `GET /api/reports/category-distribution`
(schemas/reports.py `CategoryDistribution`; color and icon omitted). -/
structure DistRow where
  category_id : Nat
  category_name : String
  total_amount : ℚ
  expense_count : Nat
  percentage : ℚ
deriving Repr, DecidableEq

/-- The grouped row for one category of the owner. -/
def categoryAggOf (expenses : List Expense) (s e : Int)
    (c : CategoryRec) : CategoryAgg :=
  { cat := c,
    total_amount := ((categoryRangeExpenses expenses c.id s e).map
      Expense.amount).sum,
    expense_count := (categoryRangeExpenses expenses c.id s e).length }

/-- `get_category_distribution` (src/routers/reports.py:262-314): group
the owner's categories with their range totals (outer join, `0` for no
expenses), order by total descending, sum all totals, then keep only
rows with positive total, each carrying the guarded percentage. -/
def get_category_distribution (cats : List CategoryRec)
    (expenses : List Expense) (uid : Nat) (s e : Int) : List DistRow :=
  let rows := (cats.filter fun c => c.user_id == uid).map
    (categoryAggOf expenses s e)
  let sortedRows := rows.mergeSort fun a b =>
    decide (b.total_amount ≤ a.total_amount)
  let totalAll := (rows.map CategoryAgg.total_amount).sum
  (sortedRows.filter fun r => decide (0 < r.total_amount)).map fun r =>
    { category_id := r.cat.id, category_name := r.cat.name,
      total_amount := r.total_amount, expense_count := r.expense_count,
      percentage :=
        if 0 < totalAll then r.total_amount / totalAll * 100 else 0 }

lemma sum_map_filter_eq_of_zero {α : Type} (p : α → Bool) (f : α → ℚ) :
    ∀ l : List α, (∀ x ∈ l, p x = false → f x = 0) →
      ((l.filter p).map f).sum = (l.map f).sum := by
  intro l
  induction l with
  | nil => intro _; rfl
  | cons a l ih =>
      intro h
      cases hp : p a with
      | true =>
          rw [List.filter_cons_of_pos (by rw [hp]), List.map_cons,
            List.map_cons, List.sum_cons, List.sum_cons,
            ih fun x hx hfx => h x (List.mem_cons_of_mem a hx) hfx]
      | false =>
          rw [List.filter_cons_of_neg (by simp [hp]), List.map_cons,
            List.sum_cons, h a (List.mem_cons_self a l) hp,
            ih fun x hx hfx => h x (List.mem_cons_of_mem a hx) hfx,
            zero_add]

/-- C6: with positive expense amounts, the distribution contains exactly
the owner's categories with nonzero range total; every reported row's
percentage is its total divided by the sum of all the owner's category
totals times 100; and when the distribution is nonempty the reported
percentages sum to exactly 100. -/
theorem get_category_distribution_correct (cats : List CategoryRec)
    (expenses : List Expense) (uid : Nat) (s e : Int)
    (hpos : ∀ x ∈ expenses, 0 < x.amount) :
    (∀ cid, (∃ r ∈ get_category_distribution cats expenses uid s e,
          r.category_id = cid) ↔
        ∃ c ∈ cats, c.user_id = uid ∧ c.id = cid ∧
          ((categoryRangeExpenses expenses cid s e).map Expense.amount).sum ≠ 0)
    ∧ (∀ r ∈ get_category_distribution cats expenses uid s e,
        r.percentage = r.total_amount /
          (((cats.filter fun c => c.user_id == uid).map fun c =>
            ((categoryRangeExpenses expenses c.id s e).map
              Expense.amount).sum).sum) * 100)
    ∧ (get_category_distribution cats expenses uid s e ≠ [] →
        ((get_category_distribution cats expenses uid s e).map
          DistRow.percentage).sum = 100) := by
  set catsF := cats.filter fun c => c.user_id == uid with hcatsF
  set rows := catsF.map (categoryAggOf expenses s e) with hrows
  set sortedRows := rows.mergeSort fun a b =>
    decide (b.total_amount ≤ a.total_amount) with hsorted
  set T := (rows.map CategoryAgg.total_amount).sum with hT
  have hTspec : T = (catsF.map fun c =>
      ((categoryRangeExpenses expenses c.id s e).map Expense.amount).sum).sum := by
    rw [hT, hrows, List.map_map]
    rfl
  have htot_nonneg : ∀ cid, (0 : ℚ) ≤
      ((categoryRangeExpenses expenses cid s e).map Expense.amount).sum := by
    intro cid
    apply List.sum_nonneg
    intro q hq
    obtain ⟨x, hx, rfl⟩ := List.mem_map.mp hq
    exact le_of_lt (hpos x (List.mem_of_mem_filter hx))
  have hrow_nonneg : ∀ r ∈ rows, (0 : ℚ) ≤ r.total_amount := by
    intro r hr
    obtain ⟨c, _, rfl⟩ := List.mem_map.mp hr
    exact htot_nonneg c.id
  have hdist : get_category_distribution cats expenses uid s e =
      (sortedRows.filter fun r => decide (0 < r.total_amount)).map fun r =>
        { category_id := r.cat.id, category_name := r.cat.name,
          total_amount := r.total_amount, expense_count := r.expense_count,
          percentage := if 0 < T then r.total_amount / T * 100 else 0 } := rfl
  have hTpos_of_mem : ∀ r ∈ rows, 0 < r.total_amount → 0 < T := by
    intro r hr hrpos
    have hmem : r.total_amount ∈ rows.map CategoryAgg.total_amount :=
      List.mem_map.mpr ⟨r, hr, rfl⟩
    have hle : r.total_amount ≤ T :=
      List.single_le_sum (fun q hq => by
        obtain ⟨x, hx, rfl⟩ := List.mem_map.mp hq
        exact hrow_nonneg x hx) _ hmem
    exact lt_of_lt_of_le hrpos hle
  refine ⟨?_, ?_, ?_⟩
  · intro cid
    constructor
    · rintro ⟨r, hr, rfl⟩
      rw [hdist] at hr
      obtain ⟨agg, hagg, rfl⟩ := List.mem_map.mp hr
      have hagg2 := List.mem_filter.mp hagg
      have haggpos : 0 < agg.total_amount := by
        simpa using hagg2.2
      have haggrows : agg ∈ rows := List.mem_mergeSort.mp hagg2.1
      obtain ⟨c, hc, rfl⟩ := List.mem_map.mp haggrows
      have hc2 := List.mem_filter.mp hc
      refine ⟨c, hc2.1, by simpa using hc2.2, rfl, ?_⟩
      exact ne_of_gt haggpos
    · rintro ⟨c, hc, hcu, rfl, hne⟩
      have hcF : c ∈ catsF := List.mem_filter.mpr ⟨hc, by simpa using hcu⟩
      have haggrows : categoryAggOf expenses s e c ∈ rows :=
        List.mem_map.mpr ⟨c, hcF, rfl⟩
      have hpos2 : 0 < (categoryAggOf expenses s e c).total_amount :=
        lt_of_le_of_ne (htot_nonneg c.id) (Ne.symm hne)
      refine ⟨{ category_id := c.id, category_name := c.name,
                total_amount := (categoryAggOf expenses s e c).total_amount,
                expense_count := (categoryAggOf expenses s e c).expense_count,
                percentage := if 0 < T then
                  (categoryAggOf expenses s e c).total_amount / T * 100
                else 0 },
        ?_, rfl⟩
      rw [hdist]
      apply List.mem_map.mpr
      refine ⟨categoryAggOf expenses s e c, ?_, rfl⟩
      exact List.mem_filter.mpr ⟨List.mem_mergeSort.mpr haggrows,
        by simpa using hpos2⟩
  · intro r hr
    rw [hdist] at hr
    obtain ⟨agg, hagg, rfl⟩ := List.mem_map.mp hr
    have hagg2 := List.mem_filter.mp hagg
    have haggpos : 0 < agg.total_amount := by
      simpa using hagg2.2
    have haggrows : agg ∈ rows := List.mem_mergeSort.mp hagg2.1
    have hTpos : 0 < T := hTpos_of_mem agg haggrows haggpos
    rw [← hTspec]
    simp [hTpos]
  · intro hne
    rw [hdist] at hne ⊢
    have hTpos : 0 < T := by
      rcases List.exists_mem_of_ne_nil _ hne with ⟨r, hr⟩
      obtain ⟨agg, hagg, rfl⟩ := List.mem_map.mp hr
      have hagg2 := List.mem_filter.mp hagg
      exact hTpos_of_mem agg (List.mem_mergeSort.mp hagg2.1)
        (by simpa using hagg2.2)
    rw [List.map_map]
    have hcomp : (DistRow.percentage ∘ fun r : CategoryAgg =>
        ({ category_id := r.cat.id, category_name := r.cat.name,
           total_amount := r.total_amount, expense_count := r.expense_count,
           percentage := if 0 < T then r.total_amount / T * 100 else 0 } :
            DistRow)) = fun r : CategoryAgg =>
          r.total_amount * (100 / T) := by
      funext r
      simp only [Function.comp_apply, if_pos hTpos]
      ring
    rw [hcomp]
    have hsum1 : ((sortedRows.filter fun r =>
        decide (0 < r.total_amount)).map fun r : CategoryAgg =>
          r.total_amount * (100 / T)).sum =
        ((sortedRows.map fun r : CategoryAgg =>
          r.total_amount * (100 / T)).sum) := by
      apply sum_map_filter_eq_of_zero
      intro x hx hfx
      have hx0 : ¬ (0 < x.total_amount) := by
        simpa using hfx
      have hxr : x ∈ rows := List.mem_mergeSort.mp hx
      have : x.total_amount = 0 :=
        le_antisymm (not_lt.mp hx0) (hrow_nonneg x hxr)
      rw [this, zero_mul]
    rw [hsum1]
    have hperm : List.Perm
        (sortedRows.map fun r : CategoryAgg => r.total_amount * (100 / T))
        (rows.map fun r : CategoryAgg => r.total_amount * (100 / T)) :=
      (List.mergeSort_perm rows _).map _
    rw [hperm.sum_eq]
    have hfact : (rows.map fun r : CategoryAgg =>
        r.total_amount * (100 / T)).sum =
        (rows.map CategoryAgg.total_amount).sum * (100 / T) :=
      List.sum_map_mul_right _ _ _
    rw [hfact, ← hT]
    field_simp

/-- A category of owner 1 and one of its in-range expenses, used in the
concrete C6 instance. -/
def exCategoryFood : CategoryRec :=
  { id := 4, user_id := 1, name := "Food", is_system := false }

/-- An expense of owner 1 in category 4 on day 12. -/
def exExpenseFood : Expense :=
  { id := 11, user_id := 1, category_id := 4, amount := 5, date := 12 }

/-- Concrete instance of C6 with one category and one positive expense. -/
theorem get_category_distribution_correct_witness :
    (∀ cid, (∃ r ∈ get_category_distribution [exCategoryFood]
          [exExpenseFood] 1 0 30, r.category_id = cid) ↔
        ∃ c ∈ [exCategoryFood], c.user_id = 1 ∧ c.id = cid ∧
          ((categoryRangeExpenses [exExpenseFood] cid 0 30).map
            Expense.amount).sum ≠ 0)
    ∧ (∀ r ∈ get_category_distribution [exCategoryFood] [exExpenseFood] 1 0 30,
        r.percentage = r.total_amount /
          (((([exCategoryFood] : List CategoryRec).filter fun c =>
            c.user_id == 1).map fun c =>
            ((categoryRangeExpenses [exExpenseFood] c.id 0 30).map
              Expense.amount).sum).sum) * 100)
    ∧ (get_category_distribution [exCategoryFood] [exExpenseFood] 1 0 30 ≠ [] →
        ((get_category_distribution [exCategoryFood] [exExpenseFood] 1 0 30).map
          DistRow.percentage).sum = 100) :=
  get_category_distribution_correct [exCategoryFood] [exExpenseFood] 1 0 30
    (by decide)

/-- The observable rejection of a route: the status code and detail
string of its `raise HTTPException(status_code=..., detail=...)`. -/
inductive ApiError where
  | notFound (detail : String)
  | badRequest (detail : String)
deriving Repr, DecidableEq

/-- `GET /api/budgets/{id}` lookup (src/routers/budgets.py:165-179): one
query filtered by `id AND user_id`, a single 404 site for every miss. -/
def get_budget_ep (st : AppState) (uid bid : Nat) : Except ApiError Budget :=
  match st.budgets.find? (fun b => b.id == bid && b.user_id == uid) with
  | none => Except.error (ApiError.notFound "Presupuesto no encontrado")
  | some b => Except.ok b

/-- The `Expense JOIN Category ON Expense.category_id == Category.id`
row set used by `get_expense` (src/routers/transactions.py:140-147). -/
def expenseCategoryJoin (st : AppState) : List (Expense × CategoryRec) :=
  st.expenses.flatMap fun x =>
    (st.categories.filter fun c => c.id == x.category_id).map fun c => (x, c)

/-- `GET /api/expenses/{id}` lookup (src/routers/transactions.py:134-150):
first joined row with `id AND user_id`, a single 404 site for every
miss. -/
def get_expense_ep (st : AppState) (uid eid : Nat) :
    Except ApiError (Expense × CategoryRec) :=
  match (expenseCategoryJoin st).find?
      (fun p => p.1.id == eid && p.1.user_id == uid) with
  | none => Except.error (ApiError.notFound "Gasto no encontrado")
  | some p => Except.ok p

/-- `GET /api/categories/{id}` lookup (src/routers/categories.py:113-127):
one query filtered by `id AND user_id`, a single 404 site for every
miss. -/
def get_category_ep (st : AppState) (uid cid : Nat) :
    Except ApiError CategoryRec :=
  match st.categories.find? (fun c => c.id == cid && c.user_id == uid) with
  | none => Except.error (ApiError.notFound "Categoría no encontrada")
  | some c => Except.ok c

/-- `DELETE /api/budgets/{id}` (src/routers/budgets.py:249-268): one
query filtered by `id AND user_id`, a single 404 site, else the row is
removed and the new store returned. -/
def delete_budget (uid bid : Nat) (st : AppState) : Except ApiError AppState :=
  match st.budgets.find? (fun b => b.id == bid && b.user_id == uid) with
  | none => Except.error (ApiError.notFound "Presupuesto no encontrado")
  | some _ =>
      Except.ok
        { st with
          budgets := st.budgets.eraseP fun b =>
            b.id == bid && b.user_id == uid }

/-- Body of `PUT /api/expenses/{id}` (schemas/transactions.py
`ExpenseUpdate`).  `category_id` keeps the outer presence `Option`
because the router checks mere presence of the key; `description` is not
modelled (the `Expense` row omits it, no embedded operation reads it),
and explicit nulls for the remaining NOT NULL columns are not modelled
either. -/
structure ExpenseUpdateReq where
  category_id : Option (Option Nat) := none
  amount : Option ℚ := none
  date : Option Int := none
deriving Repr, DecidableEq

/-- The category check of `update_expense`
(src/routers/transactions.py:190-199): run whenever `category_id` is
present in the body; a present null makes the `Category.id == None`
query match no row, failing exactly like an unknown id. -/
def expenseUpdateCategoryOk (st : AppState) (uid : Nat)
    (u : ExpenseUpdateReq) : Bool :=
  match u.category_id with
  | none => true
  | some none => false
  | some (some cid) => categoryOwned st uid cid

/-- The `setattr` loop of `update_expense`
(src/routers/transactions.py:202-203). -/
def applyExpenseUpdate (e : Expense) (u : ExpenseUpdateReq) : Expense :=
  { e with
    category_id := match u.category_id with
      | some (some cid) => cid
      | _ => e.category_id,
    amount := u.amount.getD e.amount,
    date := u.date.getD e.date }

/-- Outcome of `PUT /api/expenses/{id}`: 404 for a missing/foreign
expense, 404 for a missing/foreign category, or a committed update. -/
inductive ExpUpdateResult where
  | expenseNotFound
  | categoryNotFound
  | updated (e : Expense)
deriving Repr, DecidableEq

/-- `update_expense` (src/routers/transactions.py:171-208): find the
expense by id and owner (a single 404 site), check a present category,
apply all present fields and commit. -/
def update_expense (uid eid : Nat) (u : ExpenseUpdateReq) (st : AppState) :
    ExpUpdateResult × AppState :=
  match st.expenses.find? (fun x => x.id == eid && x.user_id == uid) with
  | none => (ExpUpdateResult.expenseNotFound, st)
  | some x =>
      if expenseUpdateCategoryOk st uid u then
        let nx := applyExpenseUpdate x u
        (ExpUpdateResult.updated nx,
          { st with expenses := st.expenses.map fun y =>
              if y.id == eid && y.user_id == uid then nx else y })
      else (ExpUpdateResult.categoryNotFound, st)

/-- `DELETE /api/expenses/{id}` (src/routers/transactions.py:213-232):
one query filtered by `id AND user_id`, a single 404 site, else the row
is removed. -/
def delete_expense (uid eid : Nat) (st : AppState) :
    Except ApiError AppState :=
  match st.expenses.find? (fun x => x.id == eid && x.user_id == uid) with
  | none => Except.error (ApiError.notFound "Gasto no encontrado")
  | some _ =>
      Except.ok
        { st with
          expenses := st.expenses.eraseP fun x =>
            x.id == eid && x.user_id == uid }

/-- Body of `PUT /api/categories/{id}` (schemas/category.py
`CategoryUpdate`); `icon` and `color` are not modelled on the row, no
embedded operation reads them. -/
structure CategoryUpdateReq where
  name : Option String := none
deriving Repr, DecidableEq

/-- SQL `ilike` with no wildcard in the pattern: case-insensitive
equality. -/
def nameIlike (a b : String) : Bool := a.toLower == b.toLower

/-- Outcome of `PUT /api/categories/{id}`: 404 for a missing/foreign (or
system) category, 400 for a duplicate name, or a committed update. -/
inductive CatUpdateResult where
  | categoryNotFound
  | duplicateName
  | updated (c : CategoryRec)
deriving Repr, DecidableEq

/-- `update_category` (src/routers/categories.py:153-198): find by
`id AND user_id AND is_system == False` (a single 404 site for absent,
foreign and system categories alike), reject a duplicate name among the
owner's other categories, then apply the present fields, the name
stripped. -/
def update_category (uid cid : Nat) (u : CategoryUpdateReq)
    (st : AppState) : CatUpdateResult × AppState :=
  match st.categories.find?
      (fun c => c.id == cid && c.user_id == uid && !c.is_system) with
  | none => (CatUpdateResult.categoryNotFound, st)
  | some c =>
      let dup := match u.name with
        | some n => st.categories.any fun c2 =>
            c2.user_id == uid && nameIlike c2.name n.trim && !(c2.id == cid)
        | none => false
      if dup then (CatUpdateResult.duplicateName, st)
      else
        let nc : CategoryRec :=
          { c with name := (u.name.map String.trim).getD c.name }
        (CatUpdateResult.updated nc,
          { st with categories := st.categories.map fun c2 =>
              if c2.id == cid && c2.user_id == uid && !c2.is_system then nc
              else c2 })

/-- `delete_category` (src/routers/categories.py:203-234): find by
`id AND user_id AND is_system == False` (a single 404 site), 400 when
expenses reference the category and `force` is off, else the row is
removed.  (A forced cascade delete of the expenses is not modelled; no
claim reads the post-state.) -/
def delete_category (uid cid : Nat) (force : Bool) (st : AppState) :
    Except ApiError AppState :=
  match st.categories.find?
      (fun c => c.id == cid && c.user_id == uid && !c.is_system) with
  | none => Except.error (ApiError.notFound "Categoría no encontrada")
  | some _ =>
      let expenseCount := (st.expenses.filter fun x =>
        x.category_id == cid).length
      if 0 < expenseCount && !force then
        Except.error (ApiError.badRequest
          ("No se puede eliminar la categoría. Tiene " ++
            toString expenseCount ++
            " gastos asociados. Usa force=true para eliminar de todas formas."))
      else
        Except.ok
          { st with
            categories := st.categories.eraseP fun c =>
              c.id == cid && c.user_id == uid && !c.is_system }

lemma budget_find_none (st : AppState) (uid bid : Nat)
    (h : ∀ b ∈ st.budgets, b.id = bid → b.user_id ≠ uid) :
    st.budgets.find? (fun b => b.id == bid && b.user_id == uid) = none := by
  rw [List.find?_eq_none]
  intro b hb
  simp only [Bool.and_eq_true, beq_iff_eq, not_and]
  exact h b hb

lemma category_find_none (st : AppState) (uid cid : Nat)
    (h : ∀ c ∈ st.categories, c.id = cid → c.user_id ≠ uid) :
    st.categories.find? (fun c => c.id == cid && c.user_id == uid) = none := by
  rw [List.find?_eq_none]
  intro c hc
  simp only [Bool.and_eq_true, beq_iff_eq, not_and]
  exact h c hc

lemma expense_join_find_none (st : AppState) (uid eid : Nat)
    (h : ∀ x ∈ st.expenses, x.id = eid → x.user_id ≠ uid) :
    (expenseCategoryJoin st).find?
      (fun p => p.1.id == eid && p.1.user_id == uid) = none := by
  rw [List.find?_eq_none]
  intro p hp
  obtain ⟨x, hx, hpc⟩ := List.mem_flatMap.mp hp
  obtain ⟨c, _, rfl⟩ := List.mem_map.mp hpc
  simp only [Bool.and_eq_true, beq_iff_eq, not_and]
  exact h x hx

lemma expense_find_none (st : AppState) (uid eid : Nat)
    (h : ∀ x ∈ st.expenses, x.id = eid → x.user_id ≠ uid) :
    st.expenses.find? (fun x => x.id == eid && x.user_id == uid) = none := by
  rw [List.find?_eq_none]
  intro x hx
  simp only [Bool.and_eq_true, beq_iff_eq, not_and]
  exact h x hx

lemma category_find_nonsystem_none (st : AppState) (uid cid : Nat)
    (h : ∀ c ∈ st.categories, c.id = cid → c.user_id ≠ uid) :
    st.categories.find?
      (fun c => c.id == cid && c.user_id == uid && !c.is_system) = none := by
  rw [List.find?_eq_none]
  intro c hc
  simp only [Bool.and_eq_true, beq_iff_eq, not_and, and_imp]
  intro hid hu
  exact absurd hu (h c hc hid)

/-- C9: for every by-id operation — read, update and delete of budgets,
expenses and categories — the observable rejection when the entity is
absent from the store is the same single 404 value as when the entity is
present but owned by another user: the two runs are observationally
identical, for any update body and any `force` flag. -/
theorem notfound_indistinguishable (stA stB : AppState)
    (uid bid eid cid : Nat) (ub : BudgetUpdateReq) (ue : ExpenseUpdateReq)
    (uc : CategoryUpdateReq) (force : Bool)
    (hbA : ∀ b ∈ stA.budgets, b.id ≠ bid)
    (hbB : ∀ b ∈ stB.budgets, b.id = bid → b.user_id ≠ uid)
    (hbEx : ∃ b ∈ stB.budgets, b.id = bid)
    (heA : ∀ x ∈ stA.expenses, x.id ≠ eid)
    (heB : ∀ x ∈ stB.expenses, x.id = eid → x.user_id ≠ uid)
    (heEx : ∃ x ∈ stB.expenses, x.id = eid)
    (hcA : ∀ c ∈ stA.categories, c.id ≠ cid)
    (hcB : ∀ c ∈ stB.categories, c.id = cid → c.user_id ≠ uid)
    (hcEx : ∃ c ∈ stB.categories, c.id = cid) :
    get_budget_ep stA uid bid = get_budget_ep stB uid bid
    ∧ get_budget_ep stA uid bid =
        Except.error (ApiError.notFound "Presupuesto no encontrado")
    ∧ (update_budget uid bid ub stA).1 = (update_budget uid bid ub stB).1
    ∧ (update_budget uid bid ub stA).1 = UpdateResult.budgetNotFound
    ∧ delete_budget uid bid stA = delete_budget uid bid stB
    ∧ delete_budget uid bid stA =
        Except.error (ApiError.notFound "Presupuesto no encontrado")
    ∧ get_expense_ep stA uid eid = get_expense_ep stB uid eid
    ∧ get_expense_ep stA uid eid =
        Except.error (ApiError.notFound "Gasto no encontrado")
    ∧ (update_expense uid eid ue stA).1 = (update_expense uid eid ue stB).1
    ∧ (update_expense uid eid ue stA).1 = ExpUpdateResult.expenseNotFound
    ∧ delete_expense uid eid stA = delete_expense uid eid stB
    ∧ delete_expense uid eid stA =
        Except.error (ApiError.notFound "Gasto no encontrado")
    ∧ get_category_ep stA uid cid = get_category_ep stB uid cid
    ∧ get_category_ep stA uid cid =
        Except.error (ApiError.notFound "Categoría no encontrada")
    ∧ (update_category uid cid uc stA).1 = (update_category uid cid uc stB).1
    ∧ (update_category uid cid uc stA).1 = CatUpdateResult.categoryNotFound
    ∧ delete_category uid cid force stA = delete_category uid cid force stB
    ∧ delete_category uid cid force stA =
        Except.error (ApiError.notFound "Categoría no encontrada") := by
  have hb1 := budget_find_none stA uid bid fun b hb hid _ => hbA b hb hid
  have hb2 := budget_find_none stB uid bid hbB
  have he1 := expense_join_find_none stA uid eid fun x hx hid _ => heA x hx hid
  have he2 := expense_join_find_none stB uid eid heB
  have hex1 := expense_find_none stA uid eid fun x hx hid _ => heA x hx hid
  have hex2 := expense_find_none stB uid eid heB
  have hc1 := category_find_none stA uid cid fun c hc hid _ => hcA c hc hid
  have hc2 := category_find_none stB uid cid hcB
  have hc31 := category_find_nonsystem_none stA uid cid
    fun c hc hid _ => hcA c hc hid
  have hc32 := category_find_nonsystem_none stB uid cid hcB
  refine ⟨?_, ?_, ?_, ?_, ?_, ?_, ?_, ?_, ?_, ?_, ?_, ?_, ?_, ?_, ?_, ?_,
    ?_, ?_⟩ <;>
    simp [get_budget_ep, get_expense_ep, get_category_ep, update_budget,
      update_expense, update_category, delete_budget, delete_expense,
      delete_category, hb1, hb2, he1, he2, hex1, hex2, hc1, hc2, hc31, hc32]

/-- A store owned by user 2 holding budget `bid = 1`, expense `eid = 10`
and category `cid = 7`, queried by user 1 in the concrete C9 instance. -/
def exStateOther : AppState :=
  { budgets := [{ id := 1, user_id := 2, category_id := none, amount := 50,
                  period := "monthly", start_date := 0, end_date := 30,
                  alert_percentage := 80 }],
    categories := [{ id := 7, user_id := 2, name := "Food",
                     is_system := false }],
    expenses := [exExpenseOther] }

/-- The empty store, queried as run A in the concrete C9 instance. -/
def exStateEmpty : AppState :=
  { budgets := [], categories := [], expenses := [] }

/-- Concrete instance of C9: each of the nine by-id operations of user 1
on an empty store and on a store holding only another owner's entities
answers the identical 404. -/
theorem notfound_indistinguishable_witness :
    get_budget_ep exStateEmpty 1 1 = get_budget_ep exStateOther 1 1
    ∧ get_budget_ep exStateEmpty 1 1 =
        Except.error (ApiError.notFound "Presupuesto no encontrado")
    ∧ (update_budget 1 1 exUpdStart14 exStateEmpty).1 =
        (update_budget 1 1 exUpdStart14 exStateOther).1
    ∧ (update_budget 1 1 exUpdStart14 exStateEmpty).1 =
        UpdateResult.budgetNotFound
    ∧ delete_budget 1 1 exStateEmpty = delete_budget 1 1 exStateOther
    ∧ delete_budget 1 1 exStateEmpty =
        Except.error (ApiError.notFound "Presupuesto no encontrado")
    ∧ get_expense_ep exStateEmpty 1 10 = get_expense_ep exStateOther 1 10
    ∧ get_expense_ep exStateEmpty 1 10 =
        Except.error (ApiError.notFound "Gasto no encontrado")
    ∧ (update_expense 1 10 {} exStateEmpty).1 =
        (update_expense 1 10 {} exStateOther).1
    ∧ (update_expense 1 10 {} exStateEmpty).1 =
        ExpUpdateResult.expenseNotFound
    ∧ delete_expense 1 10 exStateEmpty = delete_expense 1 10 exStateOther
    ∧ delete_expense 1 10 exStateEmpty =
        Except.error (ApiError.notFound "Gasto no encontrado")
    ∧ get_category_ep exStateEmpty 1 7 = get_category_ep exStateOther 1 7
    ∧ get_category_ep exStateEmpty 1 7 =
        Except.error (ApiError.notFound "Categoría no encontrada")
    ∧ (update_category 1 7 {} exStateEmpty).1 =
        (update_category 1 7 {} exStateOther).1
    ∧ (update_category 1 7 {} exStateEmpty).1 =
        CatUpdateResult.categoryNotFound
    ∧ delete_category 1 7 false exStateEmpty =
        delete_category 1 7 false exStateOther
    ∧ delete_category 1 7 false exStateEmpty =
        Except.error (ApiError.notFound "Categoría no encontrada") :=
  notfound_indistinguishable exStateEmpty exStateOther 1 1 10 7
    exUpdStart14 {} {} false
    (by decide) (by decide) (by decide) (by decide) (by decide) (by decide)
    (by decide) (by decide) (by decide)

/-- Result record of `get_yearly_report` (src/routers/reports.py:197-257),
restricted to the fields the claims mention; the per-month and
per-category breakdown maps are not modelled.  The caller derives the
period as January 1 – December 31 of the requested year; it is passed
here as the inclusive `[yearStart, yearEnd]` range. -/
structure YearlyReportRes where
  total_expenses : ℚ
  expense_count : Nat
  average_monthly : ℚ
deriving Repr, DecidableEq

/-- The `Expense JOIN Category` rows of the year filtered to the owner
and the period (src/routers/reports.py:207-215). -/
def yearlyMatching (expenses : List Expense) (cats : List CategoryRec)
    (uid : Nat) (yearStart yearEnd : Int) : List (Expense × CategoryRec) :=
  (expenses.flatMap fun x =>
    (cats.filter fun c => c.id == x.category_id).map fun c => (x, c)).filter
    fun p => p.1.user_id == uid && decide (yearStart ≤ p.1.date) &&
      decide (p.1.date ≤ yearEnd)

/-- `get_yearly_report` (src/routers/reports.py:197-257): all-zero report
when no expense matches the year, else totals and
`average_monthly = total_expenses / 12` — a constant divisor, not the
number of months that contain expenses. -/
def get_yearly_report (expenses : List Expense) (cats : List CategoryRec)
    (uid : Nat) (yearStart yearEnd : Int) : YearlyReportRes :=
  let matching := yearlyMatching expenses cats uid yearStart yearEnd
  if matching.isEmpty then
    { total_expenses := 0, expense_count := 0, average_monthly := 0 }
  else
    let total := (matching.map fun p => p.1.amount).sum
    { total_expenses := total, expense_count := matching.length,
      average_monthly := total / 12 }

/-- C10: with at least one matching expense in the year the report's
`average_monthly` is exactly `total_expenses / 12` (exact division in ℚ),
whatever months the expenses fall in; with none it is `0`. -/
theorem yearly_average_monthly_div12 (exps1 exps2 : List Expense)
    (cats : List CategoryRec) (uid : Nat) (s e : Int)
    (h1 : ∃ x ∈ exps1, x.user_id = uid ∧ s ≤ x.date ∧ x.date ≤ e ∧
      ∃ c ∈ cats, c.id = x.category_id)
    (h2 : ∀ x ∈ exps2, ¬ (x.user_id = uid ∧ s ≤ x.date ∧ x.date ≤ e)) :
    (get_yearly_report exps1 cats uid s e).average_monthly =
        (get_yearly_report exps1 cats uid s e).total_expenses / 12
    ∧ (get_yearly_report exps2 cats uid s e).average_monthly = 0 := by
  constructor
  · obtain ⟨x, hx, hu, hs, he, c, hc, hcid⟩ := h1
    have hmem : (x, c) ∈ yearlyMatching exps1 cats uid s e := by
      apply List.mem_filter.mpr
      constructor
      · apply List.mem_flatMap.mpr
        refine ⟨x, hx, ?_⟩
        apply List.mem_map.mpr
        refine ⟨c, ?_, rfl⟩
        apply List.mem_filter.mpr
        exact ⟨hc, by simpa using hcid⟩
      · simp [hu, hs, he]
    have hne : (yearlyMatching exps1 cats uid s e).isEmpty = false := by
      rcases hi : (yearlyMatching exps1 cats uid s e).isEmpty with _ | _
      · rfl
      · rw [List.isEmpty_iff] at hi
        rw [hi] at hmem
        exact absurd hmem (List.not_mem_nil _)
    simp [get_yearly_report, hne]
  · have hnil : yearlyMatching exps2 cats uid s e = [] := by
      unfold yearlyMatching
      rw [List.filter_eq_nil_iff]
      intro p hp
      obtain ⟨x, hx, hpc⟩ := List.mem_flatMap.mp hp
      obtain ⟨c, _, rfl⟩ := List.mem_map.mp hpc
      simpa [Bool.and_eq_true, decide_eq_true_eq, and_assoc] using h2 x hx
    simp [get_yearly_report, hnil]

/-- Concrete instance of C10: one matching expense on one side, only
another owner's expense on the other. -/
theorem yearly_average_monthly_div12_witness :
    (get_yearly_report [exExpenseFood] [exCategoryFood] 1 0 364).average_monthly =
        (get_yearly_report [exExpenseFood] [exCategoryFood] 1 0 364).total_expenses / 12
    ∧ (get_yearly_report [exExpenseOther] [exCategoryFood] 1 0 364).average_monthly = 0 :=
  yearly_average_monthly_div12 [exExpenseFood] [exExpenseOther]
    [exCategoryFood] 1 0 364 (by decide) (by decide)

end ControlExpenses
